import Mathlib

/-!
Shallow embedding of `root/utility/tableColumns.js` (MusicBrainz server):
declarative column-descriptor factories for a react-table based data grid.

Conventions of the embedding:
* Nullable JavaScript values (`null` / `undefined`) are `Option`s.
* Rendered React markup is the inductive type `Node`; rendering a nullable
  string is `textNode` (a string renders as a text node, `null` renders as
  nothing).
* Flow type annotations are compile-time only and are erased; runtime
  behaviour is what is embedded.
* The optional JS parameters `order = ''` and `sortable = false` are made
  explicit parameters.
* External collaborators that are imported by the file but whose code is
  not part of the embedded module (localization, link renderers, date
  formatting, the linked-entity registry) are modelled from the spec; each
  such definition says so in its doc comment.
-/

namespace TableColumns

/-- A core entity row (`CoreEntityT`): the fields this module reads.
`name` is an `Option` so that a runtime-nameless entity is expressible. -/
structure CoreEntityT where
  id : Nat
  name : Option String

/-- A role-augmented row with an `id` field (`EntityRoleT<T>`), as consumed by
the checkbox column. -/
structure EntityRoleT where
  id : Nat

/-- A partial date (`PartialDateT`): any component may be missing. -/
structure PartialDateT where
  year : Option Int
  month : Option Int
  day : Option Int

/-- A date-period row (`DatePeriodRoleT`): begin/end dates plus the
`ended` flag used by end-date formatting. -/
structure DatePeriodRoleT where
  begin_date : PartialDateT
  end_date : PartialDateT
  ended : Bool

/-- The row shape `{+begin_date: PartialDateT, ...}` of the begin-date
column. -/
structure BeginDateRow where
  begin_date : PartialDateT

/-- The row shape `{+typeName: string, ...}` of the type column; `Option`
expresses an absent value at runtime. -/
structure TypeRow where
  typeName : Option String

/-- The row shape `{+description?: string, ...}` of the instrument
description column. -/
structure DescriptionRow where
  description : Option String

/-- The row shape `{+subscribed: boolean, ...}` of the subscription
column. -/
structure SubscriptionRow where
  subscribed : Bool

/-- The row shape `{+orderingTypeID?: number, ...}` of the series
ordering-type column. -/
structure SeriesOrderingRow where
  orderingTypeID : Option Nat

/-- The row shape `{...RatableRoleT, ...}` of the ratings column. -/
structure RatableRoleT where
  id : Nat
  name : Option String
  rating : Option Nat

/-- A series ordering type record resolved through the linked-entity
registry. -/
structure SeriesOrderingTypeT where
  name : String

/-- The shape of the linked-entity registry used by
`seriesOrderingTypeColumn`. -/
structure LinkedEntitiesT where
  series_ordering_type : Nat → Option SeriesOrderingTypeT

/-- Flow's `StrOrNum` (`string | number`), the declared accessor value type
of the first (shadowed) `defineTextColumn`. -/
inductive StrOrNum where
  | str (s : String)
  | num (n : Int)

/-- Rendered React markup, restricted to the node shapes this module
produces. Collaborator components (`SortableTableHeader`,
`DescriptiveLink`, `EntityLink`, `RatingStars`) appear as opaque
constructors carrying exactly the props the module passes them. -/
inductive Node where
  | null : Node
  | text (s : String) : Node
  | input (name : Option String) (typeAttr : String) (value : Option Nat) : Node
  | sortableTableHeader (label : String) (name : String) (order : String) : Node
  | descriptiveLink (entity : CoreEntityT) : Node
  | entityLink (content : String) (entity : CoreEntityT) (subPath : String) : Node
  | ratingStars (entity : RatableRoleT) : Node
  | fragment (key : Option String) (children : List Node) : Node

/-- React's rendering of a nullable string: a string renders as a text
node, `null`/`undefined` renders as nothing. -/
def textNode : Option String → Node
  | some s => Node.text s
  | none => Node.null

/-- The props a column's `Cell` receives from react-table: `original` is
`row.original` (the row datum), `value` is `cell.value` (the accessor's
result on that row). -/
structure CellProps (D : Type) (V : Type) where
  original : D
  value : V

/-- A column descriptor (`ColumnOptions<D, V>`): cell renderer, header
markup, accessor, and optional styling/id metadata. A string accessor
`'f'` of react-table is embedded as the field projection `fun row => row.f`. -/
structure ColumnOptions (D : Type) (V : Type) where
  Cell : CellProps D V → Node
  Header : Node
  accessor : D → V
  className : Option String
  id : Option String

/-- Modelled from the spec: the localization collaborator
`translate(key) → string`; its output is opaque to this module, so it is
modelled as the identity on keys. -/
def l (key : String) : String := key

/-- Modelled from the spec: the deferred-localization helper `N_l`; at
render time it yields the same localized string as `l`. -/
def N_l (key : String) : String := l key

/-- Modelled from the spec: localized attribute lookup of a name within a
type-context category. -/
def lp_attributes (name : String) (typeContext : String) : String := l name

/-- Modelled from the spec: localized instrument-description lookup. -/
def l_instrument_descriptions (key : String) : String := l key

/-- Modelled from the spec: expansion of a localized string into markup. -/
def expand2react (s : String) : Node := Node.text s

/-- Modelled from the spec: the date-formatting collaborator, producing a
display string from a partial date. -/
def formatDate (date : PartialDateT) : String :=
  String.intercalate "-" (([date.year, date.month, date.day].filterMap id).map toString)

/-- Modelled from the spec: the end-date-formatting collaborator, which
additionally considers the row's ended/ongoing state. -/
def formatEndDate (row : DatePeriodRoleT) : String :=
  let s := formatDate row.end_date
  if s.isEmpty then (if row.ended then l "ended" else "") else s

/-- Modelled from the spec: the localized yes/no label collaborator. -/
def yesNo (b : Bool) : String := if b then l "Yes" else l "No"

/-- Modelled from the spec: the process-wide read-only linked-entity
registry; its contents are external to this module. -/
def linkedEntities : LinkedEntitiesT := ⟨fun _ => none⟩

/-- `defineCheckboxColumn(name)` (tableColumns.js lines 24-40). -/
def defineCheckboxColumn (name : String) : ColumnOptions EntityRoleT Nat where
  Cell := fun props => Node.input (some name) "checkbox" (some props.value)
  Header := Node.input none "checkbox" none
  accessor := fun row => row.id
  className := some "checkbox-cell"
  id := some "checkbox"

/-- `instrumentDescriptionColumn` (lines 42-49): renders the expanded
localized description when truthy, nothing otherwise. -/
def instrumentDescriptionColumn : ColumnOptions DescriptionRow (Option String) where
  Cell := fun props =>
    match props.value with
    | some s => if s.isEmpty then Node.null else expand2react (l_instrument_descriptions s)
    | none => Node.null
  Header := Node.text (N_l "Description")
  accessor := fun row => row.description
  className := none
  id := none

/-- `defineNameColumn(title, order, sortable)` (lines 51-72). -/
def defineNameColumn (title : String) (order : String) (sortable : Bool) :
    ColumnOptions CoreEntityT (Option String) where
  Cell := fun props => Node.descriptiveLink props.original
  Header :=
    if sortable then Node.sortableTableHeader title "name" order else Node.text title
  accessor := fun row => row.name
  className := none
  id := some "name"

/-- `defineTypeColumn(typeContext, order, sortable)` (lines 74-95). -/
def defineTypeColumn (typeContext : String) (order : String) (sortable : Bool) :
    ColumnOptions TypeRow (Option String) where
  Cell := fun props =>
    match props.value with
    | some s => if s.isEmpty then Node.null else Node.text (lp_attributes s typeContext)
    | none => Node.null
  Header :=
    if sortable then Node.sortableTableHeader (l "Type") "type" order
    else Node.text (l "Type")
  accessor := fun row => row.typeName
  className := none
  id := some "type"

/-- The first `defineTextColumn` definition (lines 97-118), shadowed by the
second. The only difference in the source is the declared accessor value
type `StrOrNum`; the runtime value is the same string, embedded here under
the injection `StrOrNum.str`. -/
def defineTextColumnFirst {D : Type} (getText : D → Option String) (columnName : String)
    (title : String) (order : String) (sortable : Bool) : ColumnOptions D StrOrNum where
  Cell := fun props => textNode (getText props.original)
  Header :=
    if sortable then Node.sortableTableHeader title columnName order else Node.text title
  accessor := fun row => StrOrNum.str ((getText row).getD "")
  className := none
  id := some columnName

/-- `defineEntityColumn(getEntity, columnName, title, order, sortable)`
(lines 120-146). -/
def defineEntityColumn {D : Type} (getEntity : D → Option CoreEntityT) (columnName : String)
    (title : String) (order : String) (sortable : Bool) : ColumnOptions D String where
  Cell := fun props =>
    match getEntity props.original with
    | some entity => Node.descriptiveLink entity
    | none => Node.null
  Header :=
    if sortable then Node.sortableTableHeader title columnName order else Node.text title
  accessor := fun row =>
    match getEntity row with
    | some entity => entity.name.getD ""
    | none => ""
  className := none
  id := some columnName

/-- The second, effective `defineTextColumn` definition (lines 148-169):
cell renders the raw extraction result, accessor coalesces `null` to the
empty string. -/
def defineTextColumn {D : Type} (getText : D → Option String) (columnName : String)
    (title : String) (order : String) (sortable : Bool) : ColumnOptions D String where
  Cell := fun props => textNode (getText props.original)
  Header :=
    if sortable then Node.sortableTableHeader title columnName order else Node.text title
  accessor := fun row => (getText row).getD ""
  className := none
  id := some columnName

/-- `defineBeginDateColumn(order, sortable)` (lines 171-189). -/
def defineBeginDateColumn (order : String) (sortable : Bool) :
    ColumnOptions BeginDateRow PartialDateT where
  Cell := fun props => Node.text (formatDate props.value)
  Header :=
    if sortable then Node.sortableTableHeader (l "Begin") "begin_date" order
    else Node.text (l "Begin")
  accessor := fun row => row.begin_date
  className := none
  id := some "begin_date"

/-- `defineEndDateColumn(order, sortable)` (lines 191-209). -/
def defineEndDateColumn (order : String) (sortable : Bool) :
    ColumnOptions DatePeriodRoleT PartialDateT where
  Cell := fun props => Node.text (formatEndDate props.original)
  Header :=
    if sortable then Node.sortableTableHeader (l "End") "end_date" order
    else Node.text (l "End")
  accessor := fun row => row.end_date
  className := none
  id := some "end_date"

/-- `ratingsColumn` (lines 211-216). -/
def ratingsColumn : ColumnOptions RatableRoleT (Option Nat) where
  Cell := fun props => Node.ratingStars props.original
  Header := Node.text (N_l "Rating")
  accessor := fun row => row.rating
  className := none
  id := none

/-- `seriesOrderingTypeColumn` (lines 218-228). -/
def seriesOrderingTypeColumn : ColumnOptions SeriesOrderingRow (Option Nat) where
  Cell := fun props =>
    match props.value.bind linkedEntities.series_ordering_type with
    | some orderingType =>
        Node.text (lp_attributes orderingType.name "series_ordering_type")
    | none => Node.null
  Header := Node.text (N_l "Ordering Type")
  accessor := fun row => row.orderingTypeID
  className := none
  id := none

/-- `subscriptionColumn` (lines 230-235). -/
def subscriptionColumn : ColumnOptions SubscriptionRow Bool where
  Cell := fun props => Node.text (yesNo props.value)
  Header := Node.text (N_l "Subscribed")
  accessor := fun row => row.subscribed
  className := none
  id := none

/-- `defineActionsColumn(actions)` (lines 237-260): one keyed fragment per
`[label, relativePath]` pair, each holding the separator slot and the
action link. -/
def defineActionsColumn (actions : List (String × String)) :
    ColumnOptions CoreEntityT Nat where
  Cell := fun props =>
    Node.fragment none
      (actions.mapIdx (fun index actionPair =>
        Node.fragment (some (actionPair.2 ++ (if index = 0 then "-first" else "")))
          [if index = 0 then Node.null else Node.text " | ",
            Node.entityLink actionPair.1 props.original actionPair.2]))
  Header := Node.text (l "Actions")
  accessor := fun row => row.id
  className := some "actions"
  id := some "actions"

/-- The `key` prop of a rendered node (`none` for unkeyed nodes). -/
def nodeKey : Node → Option String
  | Node.fragment key _ => key
  | _ => none

/-- The children of a rendered fragment (empty for other nodes). -/
def nodeChildren : Node → List Node
  | Node.fragment _ children => children
  | _ => []

/-- The keys of the per-action fragments of a rendered actions cell. -/
def actionKeys (actions : List (String × String)) (row : CoreEntityT) : List (Option String) :=
  (nodeChildren
    ((defineActionsColumn actions).Cell
      ⟨row, (defineActionsColumn actions).accessor row⟩)).map nodeKey

/-- Appending the disambiguating suffix changes a string: `s ++ "-first"`
is six characters longer than `s`. -/
theorem append_first_suffix_ne (s : String) : s ++ "-first" ≠ s := by
  intro h
  have h1 := congrArg String.length h
  rw [String.length_append] at h1
  have h2 : ("-first" : String).length = 6 := rfl
  omega

/-- Claim C1: the text-column accessor yields the extracted string when the
extraction result is present, and exactly the empty string when the
extraction result is null/undefined; its codomain is `String`, so it never
yields null/undefined. -/
theorem defineTextColumn_accessor_never_null {D : Type} (getText : D → Option String)
    (columnName title order : String) (sortable : Bool) (row : D) :
    (∀ s, getText row = some s →
      (defineTextColumn getText columnName title order sortable).accessor row = s)
    ∧ (getText row = none →
      (defineTextColumn getText columnName title order sortable).accessor row = "") := by
  refine ⟨fun s hs => ?_, fun hn => ?_⟩
  · simp [defineTextColumn, hs]
  · simp [defineTextColumn, hn]

/-- Witness for C1: a present extraction result passes through, an absent
one becomes the empty string. -/
theorem defineTextColumn_accessor_never_null_witness :
    (defineTextColumn (fun _ : Unit => some "abc") "c" "t" "" false).accessor () = "abc"
    ∧ (defineTextColumn (fun _ : Unit => (none : Option String)) "c" "t" "" false).accessor
        () = "" :=
  ⟨(defineTextColumn_accessor_never_null (fun _ : Unit => some "abc")
      "c" "t" "" false ()).1 "abc" rfl,
    (defineTextColumn_accessor_never_null (fun _ : Unit => (none : Option String))
      "c" "t" "" false ()).2 rfl⟩

/-- Claim C2: the text-column cell renders the raw extraction result
verbatim, and for an extraction function returning null the cell output
(nothing) differs from the rendering of the accessor output (an empty text
node). -/
theorem defineTextColumn_cell_raw {D : Type} (getText : D → Option String)
    (columnName title order : String) (sortable : Bool) (props : CellProps D String) :
    (defineTextColumn getText columnName title order sortable).Cell props
      = textNode (getText props.original)
    ∧ ((defineTextColumn (fun _ : Unit => (none : Option String)) "c" "t" "" false).Cell
          ⟨(), (defineTextColumn (fun _ : Unit => (none : Option String))
                  "c" "t" "" false).accessor ()⟩
        ≠ textNode (some
            ((defineTextColumn (fun _ : Unit => (none : Option String))
                "c" "t" "" false).accessor ()))) := by
  refine ⟨rfl, fun h => ?_⟩
  exact Node.noConfusion h

/-- Claim C3 counterexample: with three actions sharing the path "x", the
second and third rendered links both receive the key "x", so the keys are
not pairwise distinct even though two actions share the same path. -/
theorem defineActionsColumn_duplicate_keys :
    actionKeys [("A", "x"), ("B", "x"), ("C", "x")] ⟨1, some "e"⟩
      = [some "x-first", some "x", some "x"]
    ∧ ¬ (actionKeys [("A", "x"), ("B", "x"), ("C", "x")] ⟨1, some "e"⟩).Nodup := by
  refine ⟨rfl, fun h => ?_⟩
  rw [show actionKeys [("A", "x"), ("B", "x"), ("C", "x")] ⟨1, some "e"⟩
      = [some "x-first", some "x", some "x"] from rfl] at h
  simp at h

/-- Claim C3 (amended): each rendered link's key combines its path with the
"-first" suffix for the first entry only; the first link's key differs from
the key of any later link sharing the first link's path. (Two distinct
later links sharing a path receive identical keys, per the
counterexample.) -/
theorem defineActionsColumn_key_spec (actions : List (String × String)) (row : CoreEntityT) :
    actionKeys actions row
      = actions.mapIdx (fun index actionPair =>
          some (actionPair.2 ++ (if index = 0 then "-first" else "")))
    ∧ ∀ i p q, 0 < i → actions[0]? = some p → actions[i]? = some q → q.2 = p.2 →
        (actionKeys actions row)[0]? ≠ (actionKeys actions row)[i]? := by
  have h1 : actionKeys actions row
      = actions.mapIdx (fun index actionPair =>
          some (actionPair.2 ++ (if index = 0 then "-first" else ""))) := by
    rw [actionKeys]
    simp only [defineActionsColumn, nodeChildren, List.mapIdx_eq_enum_map, List.map_map]
    refine congrArg (fun f => List.map f actions.enum) ?_
    funext x
    rcases x with ⟨i, p⟩
    rfl
  refine ⟨h1, fun i p q hi h0 hIdx hpath heq => ?_⟩
  rw [h1, List.getElem?_mapIdx, List.getElem?_mapIdx, h0, hIdx] at heq
  rw [if_pos rfl, if_neg (Nat.pos_iff_ne_zero.mp hi)] at heq
  simp only [Option.map_some', Option.some.injEq, String.append_empty] at heq
  rw [hpath] at heq
  exact append_first_suffix_ne p.2 heq

/-- Witness for the amended C3: two actions sharing path "x" get the
distinct keys "x-first" and "x". -/
theorem defineActionsColumn_key_spec_witness :
    actionKeys [("Edit", "x"), ("Remove", "x")] ⟨1, none⟩
      = [("Edit", "x"), ("Remove", "x")].mapIdx (fun index actionPair =>
          some (actionPair.2 ++ (if index = 0 then "-first" else "")))
    ∧ (actionKeys [("Edit", "x"), ("Remove", "x")] ⟨1, none⟩)[0]?
        ≠ (actionKeys [("Edit", "x"), ("Remove", "x")] ⟨1, none⟩)[1]? :=
  ⟨(defineActionsColumn_key_spec [("Edit", "x"), ("Remove", "x")] ⟨1, none⟩).1,
    (defineActionsColumn_key_spec [("Edit", "x"), ("Remove", "x")] ⟨1, none⟩).2
      1 ("Edit", "x") ("Remove", "x") (by decide) rfl rfl rfl⟩

/-- Claim C4: for a non-empty action list the cell renders one keyed
fragment per pair in list order, the first with an empty separator slot and
each later one preceded by the literal " | " separator; concretely for
[("Edit","edit"), ("Remove","remove")] the output is the Edit link, one
separator, the Remove link, with keys "edit-first" and "remove". -/
theorem defineActionsColumn_cell_spec (actions : List (String × String))
    (row : CoreEntityT) (hne : actions ≠ []) :
    ((nodeChildren ((defineActionsColumn actions).Cell
        ⟨row, (defineActionsColumn actions).accessor row⟩)).length = actions.length)
    ∧ (∀ i p, actions[i]? = some p →
        (nodeChildren ((defineActionsColumn actions).Cell
            ⟨row, (defineActionsColumn actions).accessor row⟩))[i]?
          = some (Node.fragment (some (p.2 ++ (if i = 0 then "-first" else "")))
              [if i = 0 then Node.null else Node.text " | ",
                Node.entityLink p.1 row p.2]))
    ∧ ((defineActionsColumn [("Edit", "edit"), ("Remove", "remove")]).Cell
          ⟨⟨7, some "E"⟩,
            (defineActionsColumn [("Edit", "edit"), ("Remove", "remove")]).accessor
              ⟨7, some "E"⟩⟩
        = Node.fragment none
            [Node.fragment (some "edit-first")
              [Node.null, Node.entityLink "Edit" ⟨7, some "E"⟩ "edit"],
              Node.fragment (some "remove")
              [Node.text " | ", Node.entityLink "Remove" ⟨7, some "E"⟩ "remove"]]) := by
  refine ⟨?_, fun i p hip => ?_, rfl⟩
  · simp [defineActionsColumn, nodeChildren]
  · simp [defineActionsColumn, nodeChildren, List.getElem?_mapIdx, hip]

/-- Witness for C4 at the concrete two-action list of the claim. -/
theorem defineActionsColumn_cell_spec_witness :
    (defineActionsColumn [("Edit", "edit"), ("Remove", "remove")]).Cell
        ⟨⟨7, some "E"⟩,
          (defineActionsColumn [("Edit", "edit"), ("Remove", "remove")]).accessor
            ⟨7, some "E"⟩⟩
      = Node.fragment none
          [Node.fragment (some "edit-first")
            [Node.null, Node.entityLink "Edit" ⟨7, some "E"⟩ "edit"],
            Node.fragment (some "remove")
            [Node.text " | ", Node.entityLink "Remove" ⟨7, some "E"⟩ "remove"]] :=
  (defineActionsColumn_cell_spec [("Edit", "edit"), ("Remove", "remove")] ⟨7, some "E"⟩
    (List.cons_ne_nil _ _)).2.2

/-- Claim C5: the entity-column accessor yields the extracted entity's name
when present, and exactly the empty string when the extractor yields
nothing or an entity without a name. -/
theorem defineEntityColumn_accessor_spec {D : Type} (getEntity : D → Option CoreEntityT)
    (columnName title order : String) (sortable : Bool) (row : D) :
    (∀ entity n, getEntity row = some entity → entity.name = some n →
      (defineEntityColumn getEntity columnName title order sortable).accessor row = n)
    ∧ (getEntity row = none →
      (defineEntityColumn getEntity columnName title order sortable).accessor row = "")
    ∧ (∀ entity, getEntity row = some entity → entity.name = none →
      (defineEntityColumn getEntity columnName title order sortable).accessor row = "") := by
  refine ⟨fun entity n he hn => ?_, fun h => ?_, fun entity he hn => ?_⟩ <;>
    simp [defineEntityColumn, *]

/-- Witness for C5: a named entity, a missing entity, and a nameless
entity. -/
theorem defineEntityColumn_accessor_spec_witness :
    (defineEntityColumn (fun _ : Unit => some ⟨5, some "E"⟩) "c" "t" "" false).accessor () = "E"
    ∧ (defineEntityColumn (fun _ : Unit => (none : Option CoreEntityT))
        "c" "t" "" false).accessor () = ""
    ∧ (defineEntityColumn (fun _ : Unit => some ⟨5, none⟩) "c" "t" "" false).accessor () = "" :=
  ⟨(defineEntityColumn_accessor_spec (fun _ : Unit => some ⟨5, some "E"⟩)
      "c" "t" "" false ()).1 ⟨5, some "E"⟩ "E" rfl rfl,
    (defineEntityColumn_accessor_spec (fun _ : Unit => (none : Option CoreEntityT))
      "c" "t" "" false ()).2.1 rfl,
    (defineEntityColumn_accessor_spec (fun _ : Unit => some ⟨5, none⟩)
      "c" "t" "" false ()).2.2 ⟨5, none⟩ rfl rfl⟩

/-- Claim C6: in each sortable-capable factory, sortable=true makes the
header a sortable control bound to that column's field id and the supplied
order token, while sortable=false makes the header the literal title with
no control. -/
theorem sortable_header_toggle {D : Type} (title order columnName typeContext : String)
    (getText : D → Option String) (getEntity : D → Option CoreEntityT) :
    ((defineNameColumn title order true).Header
        = Node.sortableTableHeader title "name" order
      ∧ (defineNameColumn title order false).Header = Node.text title
      ∧ (defineNameColumn title order true).id = some "name")
    ∧ ((defineTypeColumn typeContext order true).Header
        = Node.sortableTableHeader (l "Type") "type" order
      ∧ (defineTypeColumn typeContext order false).Header = Node.text (l "Type")
      ∧ (defineTypeColumn typeContext order true).id = some "type")
    ∧ ((defineTextColumn getText columnName title order true).Header
        = Node.sortableTableHeader title columnName order
      ∧ (defineTextColumn getText columnName title order false).Header = Node.text title
      ∧ (defineTextColumn getText columnName title order true).id = some columnName)
    ∧ ((defineEntityColumn getEntity columnName title order true).Header
        = Node.sortableTableHeader title columnName order
      ∧ (defineEntityColumn getEntity columnName title order false).Header = Node.text title
      ∧ (defineEntityColumn getEntity columnName title order true).id = some columnName)
    ∧ ((defineBeginDateColumn order true).Header
        = Node.sortableTableHeader (l "Begin") "begin_date" order
      ∧ (defineBeginDateColumn order false).Header = Node.text (l "Begin")
      ∧ (defineBeginDateColumn order true).id = some "begin_date")
    ∧ ((defineEndDateColumn order true).Header
        = Node.sortableTableHeader (l "End") "end_date" order
      ∧ (defineEndDateColumn order false).Header = Node.text (l "End")
      ∧ (defineEndDateColumn order true).id = some "end_date") :=
  ⟨⟨rfl, rfl, rfl⟩, ⟨rfl, rfl, rfl⟩, ⟨rfl, rfl, rfl⟩, ⟨rfl, rfl, rfl⟩,
    ⟨rfl, rfl, rfl⟩, ⟨rfl, rfl, rfl⟩⟩

/-- Claim C7: a row whose typeName is absent or falsy makes the type-column
cell render nothing, and a row whose description is absent or falsy makes
the description-column cell render nothing; both cells are total. -/
theorem missing_values_render_nothing (typeContext order : String) (sortable : Bool)
    (row : TypeRow) (drow : DescriptionRow)
    (htype : row.typeName = none ∨ row.typeName = some "")
    (hdesc : drow.description = none ∨ drow.description = some "") :
    (defineTypeColumn typeContext order sortable).Cell
        ⟨row, (defineTypeColumn typeContext order sortable).accessor row⟩ = Node.null
    ∧ instrumentDescriptionColumn.Cell
        ⟨drow, instrumentDescriptionColumn.accessor drow⟩ = Node.null := by
  have hemp : ("" : String).isEmpty = true := rfl
  constructor
  · rcases htype with h | h <;> simp [defineTypeColumn, h, hemp]
  · rcases hdesc with h | h <;> simp [instrumentDescriptionColumn, h, hemp]

/-- Witness for C7: an absent typeName and an empty-string description both
render nothing. -/
theorem missing_values_render_nothing_witness :
    (defineTypeColumn "ctx" "" false).Cell
        ⟨⟨none⟩, (defineTypeColumn "ctx" "" false).accessor ⟨none⟩⟩ = Node.null
    ∧ instrumentDescriptionColumn.Cell
        ⟨⟨some ""⟩, instrumentDescriptionColumn.accessor ⟨some ""⟩⟩ = Node.null :=
  missing_values_render_nothing "ctx" "" false ⟨none⟩ ⟨some ""⟩ (Or.inl rfl) (Or.inr rfl)

/-- Claim C8: the checkbox column's accessor reads the row's id, its cell
renders a checkbox input whose value is the row's id and whose form name is
the constructor argument, the same for every row. -/
theorem defineCheckboxColumn_spec (name : String) (row : EntityRoleT) :
    (defineCheckboxColumn name).accessor row = row.id
    ∧ (defineCheckboxColumn name).Cell ⟨row, (defineCheckboxColumn name).accessor row⟩
        = Node.input (some name) "checkbox" (some row.id) :=
  ⟨rfl, rfl⟩

/-- Claim C9: every factory is pure: two calls with identical arguments
yield equal descriptors (hence identical accessor/header/cell behaviour on
every input). -/
theorem factories_pure {D : Type} (name title order columnName typeContext : String)
    (sortable : Bool) (getText : D → Option String) (getEntity : D → Option CoreEntityT)
    (actions : List (String × String)) :
    defineCheckboxColumn name = defineCheckboxColumn name
    ∧ defineNameColumn title order sortable = defineNameColumn title order sortable
    ∧ defineTypeColumn typeContext order sortable = defineTypeColumn typeContext order sortable
    ∧ defineTextColumnFirst getText columnName title order sortable
        = defineTextColumnFirst getText columnName title order sortable
    ∧ defineEntityColumn getEntity columnName title order sortable
        = defineEntityColumn getEntity columnName title order sortable
    ∧ defineTextColumn getText columnName title order sortable
        = defineTextColumn getText columnName title order sortable
    ∧ defineBeginDateColumn order sortable = defineBeginDateColumn order sortable
    ∧ defineEndDateColumn order sortable = defineEndDateColumn order sortable
    ∧ defineActionsColumn actions = defineActionsColumn actions :=
  ⟨rfl, rfl, rfl, rfl, rfl, rfl, rfl, rfl, rfl⟩

/-- Claim C10: the shadowed and the effective `defineTextColumn` produce
descriptors with identical cell, header, id and className, and accessors
that agree up to Flow's `string <: StrOrNum` upcast (the declared value
type is the only difference). -/
theorem defineTextColumn_shadow_equivalent {D : Type} (getText : D → Option String)
    (columnName title order : String) (sortable : Bool) (row : D)
    (v : StrOrNum) (w : String) :
    (defineTextColumnFirst getText columnName title order sortable).Cell ⟨row, v⟩
      = (defineTextColumn getText columnName title order sortable).Cell ⟨row, w⟩
    ∧ (defineTextColumnFirst getText columnName title order sortable).Header
      = (defineTextColumn getText columnName title order sortable).Header
    ∧ (defineTextColumnFirst getText columnName title order sortable).accessor row
      = StrOrNum.str ((defineTextColumn getText columnName title order sortable).accessor row)
    ∧ (defineTextColumnFirst getText columnName title order sortable).id
      = (defineTextColumn getText columnName title order sortable).id
    ∧ (defineTextColumnFirst getText columnName title order sortable).className
      = (defineTextColumn getText columnName title order sortable).className :=
  ⟨rfl, rfl, rfl, rfl, rfl⟩

end TableColumns
